import Mathlib

/-!
Verification model of the heapstats snapshot counting core.

The definitions below are a shallow embedding of the C++ sources
`snapShotContainer.cpp`, `snapShotContainer.hpp` and `classContainer.hpp`:

* machine integers (`jlong`, `jint`, `unsigned int`) become `Int` / `Nat`;
* heap pointers become `Nat` addresses drawn from a monotone allocation
  counter carried in the state; `free` is recorded in a `freed` list;
* the intrusive `next`-linked child list becomes a `List`;
* `tbb::concurrent_unordered_map` becomes an association list with
  unique keys (`operator[]` assignment overwrites the mapped value in
  place, exactly as in the source);
* the bounded `tbb::concurrent_bounded_queue` of containers becomes a
  FIFO `List` plus a fresh-allocation counter and a destroyed list.

Only the successful allocation path is modelled: in the source a failed
`calloc` / `posix_memalign` makes the operation return `NULL` without
touching the container, which no claim below depends on.
-/

/-- Pair of class-instance count and total used size
(`TObjectCounter` in snapShotContainer.hpp): two `jlong` fields. -/
structure TObjectCounter where
  count : Int
  total_size : Int
deriving DecidableEq, Repr

/-- The all-zero object counter, the state produced by
`TSnapShotContainer::clearObjectCounter`. -/
def zeroObjectCounter : TObjectCounter := { count := 0, total_size := 0 }

/-- Class information record (`TObjectData` in snapShotContainer.hpp).
Fields not used by any operation modelled here (`className`,
`classNameLen`, `oldTotalSize`, `oopType`, `clsLoaderId`,
`clsLoaderTag`) are omitted. `klassOop` is the host class pointer,
`isRemoved` the unload flag. -/
structure TObjectData where
  tag : Int
  klassOop : Nat
  isRemoved : Bool
  instanceSize : Int
deriving DecidableEq, Repr

/-- Child class counter (`TChildClassCounter` in snapShotContainer.hpp).
`addr` models the node's heap address (its identity); the source's
`next` pointer is replaced by the position in the enclosing `List`.
`calloc` zero-fills the struct, so a fresh node has `callCount = 0`. -/
structure TChildClassCounter where
  addr : Nat
  counter : TObjectCounter
  objData : TObjectData
  callCount : Nat
deriving DecidableEq, Repr

/-- Class counter (`TClassCounter` in snapShotContainer.hpp). `addr`
models the heap address returned by `calloc`; `child` is the intrusive
singly linked child list read off from the `child`/`next` pointers;
`offsets` is the cached field-offset table (`TOopMapBlock *`, `none`
for `NULL`); the spin-lock word is not represented (all modelled
operations are sequential). -/
structure TClassCounter where
  addr : Nat
  counter : TObjectCounter
  child : List TChildClassCounter
  offsets : Option (List Int)
  offsetCount : Int
deriving DecidableEq, Repr

/-! ## Container pool (`stockQueue`)

`TSnapShotContainer::getInstance` / `releaseInstance` in
snapShotContainer.cpp manage a `tbb::concurrent_bounded_queue` of idle
containers with limit `MAX_STOCK_COUNT`. Containers are identified
here by their address (`Nat`); `nextId` allocates fresh addresses and
`destroyed` records every `delete`. -/

/-- Max limit count of snapshot container instances kept in stock
(`MAX_STOCK_COUNT` in snapShotContainer.hpp). -/
def MAX_STOCK_COUNT : Nat := 2

/-- State of the process-wide container stock queue: the FIFO queue of
idle container addresses, the fresh-address allocator, and the list of
destroyed container addresses. -/
structure PoolState where
  queue : List Nat
  nextId : Nat
  destroyed : List Nat
deriving DecidableEq, Repr

/-- `TSnapShotContainer::getInstance` (snapShotContainer.cpp lines
73-88): `try_pop` from the stock queue; on a miss allocate a fresh
container. -/
def getInstance (p : PoolState) : Nat × PoolState :=
  match p.queue with
  | c :: rest => (c, { p with queue := rest })
  | [] => (p.nextId, { p with nextId := p.nextId + 1 })

/-- `TSnapShotContainer::releaseInstance` (snapShotContainer.cpp lines
95-129): if the stock queue holds fewer than `MAX_STOCK_COUNT`
containers, clear the instance (`clear(false)`, which does not change
its address) and push it; otherwise `delete` it. The push itself
cannot fail in the model. -/
def releaseInstance (p : PoolState) (inst : Nat) : PoolState :=
  if p.queue.length < MAX_STOCK_COUNT then
    { p with queue := p.queue ++ [inst] }
  else
    { p with destroyed := p.destroyed ++ [inst] }

/-- The empty pool created by `TSnapShotContainer::globalInitialize`. -/
def emptyPool : PoolState := { queue := [], nextId := 0, destroyed := [] }

/-! ## Snapshot file header and JVM info -/

/-- Snapshot trigger cause (`TInvokeCause`). Its definition lives in
jvmInfo.hpp, which is not among the given sources; the spec (§6) lists
the members. Only `GC` is compared against in the given code
(`setJvmInfo`, `printGCInfo`). -/
inductive TInvokeCause where
  | Interval
  | GC
  | Explicit
  | ResourceExhaustion
deriving DecidableEq, Repr

/-- Byte-order-mark sentinel (`BOM`). Its concrete value is defined
outside the given sources and no claim depends on it. -/
def BOM : Nat := 1

/-- Magic number for a 2.0-format snapshot (`EXTENDED_SNAPSHOT`,
`0b10000000`). -/
def EXTENDED_SNAPSHOT : Nat := 128

/-- Magic number for a 2.0-format snapshot with reference-tree payload
(`EXTENDED_REFTREE_SNAPSHOT`, `0b10000001`). -/
def EXTENDED_REFTREE_SNAPSHOT : Nat := 129

/-- Width in bytes of the fixed `gcCause` buffer of the header:
`char gcCause[80]` in snapShotContainer.hpp. -/
def gcCauseFieldSize : Nat := 80

/-- Snapshot file header (`TSnapShotFileHeader` in
snapShotContainer.hpp). The `gcCause` member is a fixed 80-byte
buffer in the source; it is modelled as the full byte region actually
written, so that a write running past the 80th byte is visible as
`gcCause.length > gcCauseFieldSize`. -/
structure TSnapShotFileHeader where
  magicNumber : Nat
  byteOrderMark : Nat
  snapShotTime : Int
  size : Int
  cause : TInvokeCause
  gcCauseLen : Int
  gcCause : List Char
  FGCCount : Int
  YGCCount : Int
  gcWorktime : Int
  newAreaSize : Int
  oldAreaSize : Int
  totalHeapSize : Int
  metaspaceUsage : Int
  metaspaceCapacity : Int
deriving DecidableEq, Repr

/-- JVM performance information (`TJvmInfo`). jvmInfo.hpp is not among
the given sources; the accessors used by `setJvmInfo` (`getGCCause`,
`getGCWorktime`, `getFGCCount`, `getYGCCount`, `getNewAreaSize`,
`getOldAreaSize`, `getMetaspaceUsage`, `getMetaspaceCapacity`) are
modelled as fields. `gcCause` is the C string content returned by
`getGCCause` (no interior NUL bytes). -/
structure TJvmInfo where
  gcCause : List Char
  gcWorktime : Int
  FGCCount : Int
  YGCCount : Int
  newAreaSize : Int
  oldAreaSize : Int
  metaspaceUsage : Int
  metaspaceCapacity : Int
deriving DecidableEq, Repr

/-- C `strcpy(dest, src)`: writes every byte of `src` and a
terminating NUL at the start of `dest`, regardless of the size of the
destination buffer. The bytes of `dest` past the copied region are
untouched. -/
def strcpy (dest src : List Char) : List Char :=
  src ++ [Char.ofNat 0] ++ dest.drop (src.length + 1)

/-- C `strlen`: number of bytes before the first NUL. -/
def strlen (s : List Char) : Nat :=
  (s.takeWhile (fun c => c != Char.ofNat 0)).length

/-! ## Association-list model of `tbb::concurrent_unordered_map`

Keys are pointer values (`Nat`); keys are unique. `assocSet` is
`operator[]` assignment: it overwrites the mapped value in place if
the key is present and appends otherwise. `assocErase` removes the
key. -/

/-- Lookup in the pointer-keyed map (`map.find(k)`). -/
def assocFind {α : Type} : List (Nat × α) → Nat → Option α
  | [], _ => none
  | kv :: rest, k => if kv.1 = k then some kv.2 else assocFind rest k

/-- `map[k] = v`: overwrite in place if present, append otherwise. -/
def assocSet {α : Type} : List (Nat × α) → Nat → α → List (Nat × α)
  | [], k, v => [(k, v)]
  | kv :: rest, k, v =>
    if kv.1 = k then (k, v) :: rest else kv :: assocSet rest k v

/-- Erase the key from the map. -/
def assocErase {α : Type} : List (Nat × α) → Nat → List (Nat × α)
  | [], _ => []
  | kv :: rest, k =>
    if kv.1 = k then assocErase rest k else kv :: assocErase rest k

/-! ## Snapshot container -/

/-- Snapshot container (`TSnapShotContainer`). `counterMap` is keyed
by the `TObjectData *` pointer of the class record (a `Nat` address).
`nextAddr` models the C allocator: each `calloc` of a class or child
counter hands out the next address. `freed` records every `free` of a
class or child counter (none happens on the modelled success paths).
-/
structure TSnapShotContainer where
  header : TSnapShotFileHeader
  counterMap : List (Nat × TClassCounter)
  isCleared : Bool
  nextAddr : Nat
  freed : List Nat
deriving DecidableEq, Repr

namespace TSnapShotContainer

/-- The container constructor (snapShotContainer.cpp lines 134-145):
sets the magic number according to the reference-tree configuration
flag, the byte-order mark, zero snapshot time and entry count, zeroes
the 80-byte `gcCause` buffer and sets `isCleared`. Header fields the
constructor leaves uninitialized (`cause`, `gcCauseLen`, the GC and
area statistics) are modelled as `Interval` / `0`; every claim sets
them through the setters before depending on them. -/
def newContainer (collectRefTree : Bool) : TSnapShotContainer :=
  { header :=
    { magicNumber := if collectRefTree then EXTENDED_REFTREE_SNAPSHOT
                     else EXTENDED_SNAPSHOT
      byteOrderMark := BOM
      snapShotTime := 0
      size := 0
      cause := TInvokeCause.Interval
      gcCauseLen := 0
      gcCause := List.replicate gcCauseFieldSize (Char.ofNat 0)
      FGCCount := 0
      YGCCount := 0
      gcWorktime := 0
      newAreaSize := 0
      oldAreaSize := 0
      totalHeapSize := 0
      metaspaceUsage := 0
      metaspaceCapacity := 0 }
    counterMap := []
    isCleared := true
    nextAddr := 0
    freed := [] }

/-- `TSnapShotContainer::clearObjectCounter` (snapShotContainer.hpp
generic fallback): zero both fields. -/
def clearObjectCounter (_counter : TObjectCounter) : TObjectCounter :=
  zeroObjectCounter

/-- `TSnapShotContainer::clearChildClassCounters` (snapShotContainer.hpp
generic fallback, lines 482-496): zero the counter of every child in
the list, then zero the class's own counter. The `callCount >>= 1`
line in the source is commented out, so `callCount` is untouched. -/
def clearChildClassCounters (counter : TClassCounter) : TClassCounter :=
  { counter with
    child := counter.child.map
      (fun ch => { ch with counter := clearObjectCounter ch.counter })
    counter := clearObjectCounter counter.counter }

/-- `TSnapShotContainer::clear` (snapShotContainer.cpp lines 317-339):
a non-forced clear of an already-cleared container returns at once;
otherwise, for every class counter, free the field-offset cache and
null it, reset `offsetCount` to `-1`, zero its own counter and every
child counter, and finally set `isCleared`. The header is not
touched. -/
def clear (s : TSnapShotContainer) (isForce : Bool) : TSnapShotContainer :=
  if !isForce && s.isCleared then s
  else
    { s with
      counterMap := s.counterMap.map (fun kv =>
        (kv.1, clearChildClassCounters
          { kv.2 with offsets := none, offsetCount := -1 }))
      isCleared := true }

/-- `TSnapShotContainer::findClass` (snapShotContainer.hpp lines
299-302): map lookup, `NULL` when absent. -/
def findClass (s : TSnapShotContainer) (objData : Nat) : Option TClassCounter :=
  assocFind s.counterMap objData

/-- `TSnapShotContainer::pushNewClass` (snapShotContainer.cpp lines
186-224): `calloc` a `TClassCounter` (zero-filled, so `child = NULL`
and `offsets = NULL`), set `offsetCount = -1`, allocate and zero its
aligned `TObjectCounter`, then execute `counterMap[objData] = cur`,
which overwrites any value already mapped to `objData` without
freeing it, and return the freshly allocated counter. Allocation
failure (which frees the partial allocation and returns `NULL`
leaving the map untouched) is not modelled. -/
def pushNewClass (s : TSnapShotContainer) (objData : Nat) :
    TClassCounter × TSnapShotContainer :=
  let cur : TClassCounter :=
    { addr := s.nextAddr
      counter := zeroObjectCounter
      child := []
      offsets := none
      offsetCount := -1 }
  (cur, { s with
          counterMap := assocSet s.counterMap objData cur
          nextAddr := s.nextAddr + 1 })

/-- `TSnapShotContainer::pushNewChildClass` (snapShotContainer.cpp
lines 232-270): `calloc` a `TChildClassCounter` (zero-filled, so
`callCount = 0`), allocate and zero its aligned counter, record the
child class record, and append it at the tail of the parent's child
list under the parent's spin-lock. The parent is designated by its
key in the counter map; with no parent present the operation is
vacuous (the source is only ever called with a live parent pointer).
-/
def pushNewChildClass (s : TSnapShotContainer) (parentKey : Nat)
    (objData : TObjectData) : Option TChildClassCounter × TSnapShotContainer :=
  match assocFind s.counterMap parentKey with
  | none => (none, s)
  | some cc =>
    let newCounter : TChildClassCounter :=
      { addr := s.nextAddr
        counter := zeroObjectCounter
        objData := objData
        callCount := 0 }
    let cc2 := { cc with child := cc.child ++ [newCounter] }
    (some newCounter,
     { s with
       counterMap := assocSet s.counterMap parentKey cc2
       nextAddr := s.nextAddr + 1 })

/-- Recursive core of `TSnapShotContainer::findChildClass`
(snapShotContainer.hpp lines 311-350): scan the tail `l` with `prev`
the node just before it. On a miss of the whole list everything is
kept. On a hit the node's `callCount` is first incremented; then, if
the immediately preceding node's `callCount` is lower or equal, the
hit node is swapped one step toward the head (the `morePrevCounter` /
head relink of the source is the reconstruction of the prefix here).
-/
def findChildGo (prev : TChildClassCounter) (l : List TChildClassCounter)
    (klassOop : Nat) : Option TChildClassCounter × List TChildClassCounter :=
  match l with
  | [] => (none, [prev])
  | c :: rest =>
    if c.objData.klassOop = klassOop then
      let hit := { c with callCount := c.callCount + 1 }
      if prev.callCount ≤ hit.callCount then (some hit, hit :: prev :: rest)
      else (some hit, prev :: hit :: rest)
    else
      let r := findChildGo c rest klassOop
      (r.1, prev :: r.2)

/-- `TSnapShotContainer::findChildClass` (snapShotContainer.hpp lines
311-350): walk the child list comparing `objData->klassOop`. A hit at
the head (where `prevCounter == NULL`) only increments its
`callCount`; further down, `findChildGo` performs the LFU single-step
promotion. Returns the found node (with its incremented count) and
the class counter with its reordered list. -/
def findChildClass (cc : TClassCounter) (klassOop : Nat) :
    Option TChildClassCounter × TClassCounter :=
  match cc.child with
  | [] => (none, cc)
  | c :: rest =>
    if c.objData.klassOop = klassOop then
      let hit := { c with callCount := c.callCount + 1 }
      (some hit, { cc with child := hit :: rest })
    else
      let r := findChildGo c rest klassOop
      (r.1, { cc with child := r.2 })

/-- `TSnapShotContainer::addInc` (snapShotContainer.hpp generic
fallback, lines 463-467): add the operand's fields into the counter.
-/
def addInc (counter operand : TObjectCounter) : TObjectCounter :=
  { count := counter.count + operand.count
    total_size := counter.total_size + operand.total_size }

/-- Accumulation step of the walker: `addInc(c->counter, operand)` on
the class counter `c` previously obtained from `findClass(key)`. In
the source `addInc` mutates through the raw counter pointer; here the
pointed-to counter is designated by the class key. Absent key means
the caller held no pointer and nothing happens. -/
def addIncToClass (s : TSnapShotContainer) (key : Nat)
    (operand : TObjectCounter) : TSnapShotContainer :=
  match assocFind s.counterMap key with
  | none => s
  | some cc =>
    let cc2 := { cc with counter := addInc cc.counter operand }
    { s with counterMap := assocSet s.counterMap key cc2 }

/-- `TSnapShotContainer::setSnapShotTime` (snapShotContainer.hpp). -/
def setSnapShotTime (s : TSnapShotContainer) (t : Int) : TSnapShotContainer :=
  { s with header := { s.header with snapShotTime := t } }

/-- `TSnapShotContainer::setSnapShotCause` (snapShotContainer.hpp). -/
def setSnapShotCause (s : TSnapShotContainer) (cause : TInvokeCause) :
    TSnapShotContainer :=
  { s with header := { s.header with cause := cause } }

/-- `TSnapShotContainer::setTotalSize` (snapShotContainer.hpp). -/
def setTotalSize (s : TSnapShotContainer) (size : Int) : TSnapShotContainer :=
  { s with header := { s.header with totalHeapSize := size } }

/-- `TSnapShotContainer::setIsCleared` (snapShotContainer.hpp line
381): set the flag, touching nothing else. -/
def setIsCleared (s : TSnapShotContainer) (flag : Bool) : TSnapShotContainer :=
  { s with isCleared := flag }

/-- `TSnapShotContainer::setJvmInfo` (snapShotContainer.cpp lines
276-312): when the recorded cause is `GC`, `strcpy` the GC cause
string into the fixed 80-byte `gcCause` buffer — the source performs
a plain `strcpy` with no length bound — set `gcCauseLen` from
`strlen` of the copied buffer and copy the GC work time; otherwise
store a single NUL, length 1, and zero work time. The GC counts and
area statistics are copied unconditionally. The `info == NULL` early
return is not modelled. -/
def setJvmInfo (s : TSnapShotContainer) (info : TJvmInfo) : TSnapShotContainer :=
  let h := s.header
  let h2 :=
    if h.cause = TInvokeCause.GC then
      let buf := strcpy h.gcCause info.gcCause
      { h with gcCause := buf
               gcCauseLen := (strlen buf : Int)
               gcWorktime := info.gcWorktime }
    else
      { h with gcCauseLen := 1
               gcCause := Char.ofNat 0 :: h.gcCause.drop 1
               gcWorktime := 0 }
  { s with header :=
    { h2 with FGCCount := info.FGCCount
              YGCCount := info.YGCCount
              newAreaSize := info.newAreaSize
              oldAreaSize := info.oldAreaSize
              metaspaceUsage := info.metaspaceUsage
              metaspaceCapacity := info.metaspaceCapacity } }

end TSnapShotContainer

/-- Pool state after the S4 scenario prefix: acquire three containers
from the fresh pool and release all three in order. -/
def poolScenarioS4 : (Nat × Nat × Nat) × PoolState :=
  let r1 := getInstance emptyPool
  let r2 := getInstance r1.2
  let r3 := getInstance r2.2
  let p3 := releaseInstance (releaseInstance (releaseInstance r3.2 r1.1) r2.1) r3.1
  ((r1.1, r2.1, r3.1), p3)

/-- C3: with pool capacity 2, after acquiring three containers `a`,
`b`, `c` and releasing all three in order, the pool holds exactly the
two containers `a`, `b` and `c` has been destroyed; three further
acquires return `a`, then `b`, then a fresh address distinct from all
of `a`, `b`, `c`. -/
theorem pool_recycling_capacity_two :
    poolScenarioS4.2.queue = [poolScenarioS4.1.1, poolScenarioS4.1.2.1] ∧
    poolScenarioS4.2.queue.length = MAX_STOCK_COUNT ∧
    poolScenarioS4.2.destroyed = [poolScenarioS4.1.2.2] ∧
    (getInstance poolScenarioS4.2).1 = poolScenarioS4.1.1 ∧
    (getInstance (getInstance poolScenarioS4.2).2).1 = poolScenarioS4.1.2.1 ∧
    (getInstance (getInstance (getInstance poolScenarioS4.2).2).2).1 ∉
      [poolScenarioS4.1.1, poolScenarioS4.1.2.1, poolScenarioS4.1.2.2] ∧
    (getInstance (getInstance (getInstance poolScenarioS4.2).2).2).2.queue
      = [] := by
  decide

open TSnapShotContainer

/-! ## Map lemmas -/

theorem assocFind_assocSet {α : Type} (m : List (Nat × α)) (k : Nat) (v : α) :
    assocFind (assocSet m k v) k = some v := by
  induction m with
  | nil => simp [assocSet, assocFind]
  | cons kv rest ih =>
    by_cases h : kv.1 = k
    · simp [assocSet, assocFind, h]
    · simp [assocSet, assocFind, h, ih]

theorem clear_isCleared (s : TSnapShotContainer) (f : Bool) :
    (clear s f).isCleared = true := by
  cases f <;> cases h : s.isCleared <;> simp [clear, h]

/-! ## Claim theorems -/

/-- C1 counterexample: pushing the same class record twice into the
same container yields two distinct class counters, `find_class` then
returns the second one (a pointer different from the first successful
`push_class` return), and the losing allocation is never freed. This
refutes the claimed pointer stability of `find_class` across repeated
pushes. -/
theorem pushNewClass_stability_counterexample :
    let p1 := pushNewClass (newContainer false) 7
    let p2 := pushNewClass p1.2 7
    findClass p2.2 7 = some p2.1 ∧
    p2.1 ≠ p1.1 ∧
    findClass p2.2 7 ≠ some p1.1 ∧
    p2.2.freed = [] := by
  decide

/-- C1 amended: `find_class` returns the counter installed by the most
recent `push_class` for the record, or null if never pushed; each
`push_class` allocates a fresh counter and installs it via map
assignment, overwriting — without freeing — any counter from an
earlier push of the same record, and returns its own allocation
rather than the earlier one. -/
theorem pushNewClass_last_write_wins (s : TSnapShotContainer) (r : Nat) :
    let p := pushNewClass s r
    let q := pushNewClass p.2 r
    findClass p.2 r = some p.1 ∧ p.2.freed = s.freed ∧
    findClass q.2 r = some q.1 ∧ q.2.freed = s.freed ∧
    q.1 ≠ p.1 := by
  refine ⟨?_, rfl, ?_, rfl, ?_⟩
  · simp [pushNewClass, findClass, assocFind_assocSet]
  · simp [pushNewClass, findClass, assocFind_assocSet]
  · intro h
    have h2 := congrArg TClassCounter.addr h
    simp [pushNewClass] at h2

set_option maxRecDepth 10000 in
/-- C2: with the header cause set to `GC` and a GC-cause string of 100
characters, `setJvmInfo` copies all 100 characters plus the
terminating NUL into the 80-byte `gcCause` field: 101 bytes are
written, exceeding the field, and the recorded length 100 shows no
truncation took place. This exhibits the unbounded `strcpy` of
snapShotContainer.cpp line 286 on the failing input. -/
theorem setJvmInfo_strcpy_overflows_gcCause :
    let info : TJvmInfo :=
      { gcCause := List.replicate 100 (Char.ofNat 65)
        gcWorktime := 5
        FGCCount := 1
        YGCCount := 2
        newAreaSize := 3
        oldAreaSize := 4
        metaspaceUsage := 6
        metaspaceCapacity := 7 }
    let s := setJvmInfo (setSnapShotCause (newContainer false) TInvokeCause.GC) info
    s.header.gcCause.length = 101 ∧
    gcCauseFieldSize < s.header.gcCause.length ∧
    s.header.gcCauseLen = 100 := by
  decide

/-- C9: a non-forced clear is idempotent: applied twice in succession
it changes nothing after the first application, and applied to an
already-cleared container it is the identity (the source returns
before writing anything). -/
theorem clear_nonforced_idempotent (s : TSnapShotContainer) :
    clear (clear s false) false = clear s false ∧
    (s.isCleared = true → clear s false = s) := by
  constructor
  · have h := clear_isCleared s false
    generalize clear s false = t at h ⊢
    simp [clear, h]
  · intro h
    simp [clear, h]

/-- Witness for C9 at a concrete container: the freshly constructed
container is already cleared, so a non-forced clear is the identity
and a second application changes nothing. -/
theorem clear_nonforced_idempotent_witness :
    clear (clear (newContainer false) false) false = clear (newContainer false) false ∧
    clear (newContainer false) false = newContainer false :=
  ⟨(clear_nonforced_idempotent (newContainer false)).1,
   (clear_nonforced_idempotent (newContainer false)).2 (by decide)⟩

/-! ## Cleared-state predicates -/

/-- A class counter reads as fully cleared: its own counter is zero,
its field-offset cache is null, and every child counter in its list
is zero. -/
def classCounterZeroed (cc : TClassCounter) : Prop :=
  cc.counter = zeroObjectCounter ∧ cc.offsets = none ∧
  ∀ ch ∈ cc.child, ch.counter = zeroObjectCounter

instance : DecidablePred classCounterZeroed := fun cc => by
  unfold classCounterZeroed
  infer_instance

/-- Every class counter reachable in the container's map reads as
fully cleared. -/
def containerCleared (s : TSnapShotContainer) : Prop :=
  ∀ kv ∈ s.counterMap, classCounterZeroed kv.2

instance : DecidablePred containerCleared := fun s => by
  unfold containerCleared
  infer_instance

/-- Invariant 4 of the spec: `is-cleared = true` implies every counter
in the container reads as zero and every offsets cache is null. -/
def clearedInvariant (s : TSnapShotContainer) : Prop :=
  s.isCleared = true → containerCleared s

instance : DecidablePred clearedInvariant := fun s => by
  unfold clearedInvariant
  infer_instance

theorem mem_assocSet {α : Type} {m : List (Nat × α)} {k : Nat} {v : α}
    {kv : Nat × α} (h : kv ∈ assocSet m k v) : kv ∈ m ∨ kv = (k, v) := by
  induction m with
  | nil =>
    simp [assocSet] at h
    exact Or.inr h
  | cons hd rest ih =>
    by_cases hk : hd.1 = k
    · simp [assocSet, hk] at h
      rcases h with h | h
      · exact Or.inr h
      · exact Or.inl (List.mem_cons_of_mem _ h)
    · simp [assocSet, hk] at h
      rcases h with h | h
      · exact Or.inl (by simp [h])
      · rcases ih h with h2 | h2
        · exact Or.inl (List.mem_cons_of_mem _ h2)
        · exact Or.inr h2

theorem assocFind_mem {α : Type} {m : List (Nat × α)} {k : Nat} {v : α}
    (h : assocFind m k = some v) : (k, v) ∈ m := by
  induction m with
  | nil => simp [assocFind] at h
  | cons hd rest ih =>
    obtain ⟨a, b⟩ := hd
    by_cases hk : a = k
    · subst hk
      simp [assocFind] at h
      subst h
      exact List.mem_cons_self _ _
    · simp [assocFind, hk] at h
      exact List.mem_cons_of_mem _ (ih h)

/-- C4: after a forced clear, every class counter reachable in the
container has a zero counter, a zero counter on every child in its
list, a null offsets cache, and `offsetCount` reset to `-1`. -/
theorem clear_force_zeroes (s : TSnapShotContainer) (kv : Nat × TClassCounter)
    (h : kv ∈ (clear s true).counterMap) :
    classCounterZeroed kv.2 ∧ kv.2.offsetCount = -1 := by
  simp only [clear, Bool.not_true, Bool.false_and, if_neg, Bool.false_eq_true,
    not_false_iff, ite_false] at h
  rw [List.mem_map] at h
  obtain ⟨x, hx, rfl⟩ := h
  refine ⟨⟨rfl, rfl, ?_⟩, rfl⟩
  intro ch hch
  simp only [clearChildClassCounters, clearObjectCounter, List.mem_map] at hch
  obtain ⟨c0, hc0, rfl⟩ := hch
  rfl

/-- Concrete sample container for the C4 witness: one class pushed at
key 7 and accumulated into, then force-cleared. -/
def c4Sample : TSnapShotContainer :=
  addIncToClass (pushNewClass (newContainer false) 7).2 7
    { count := 2, total_size := 16 }

/-- The single class-map entry of `c4Sample` after a forced clear. -/
def c4ClearedEntry : TClassCounter :=
  { addr := 0
    counter := zeroObjectCounter
    child := []
    offsets := none
    offsetCount := -1 }

/-- Witness for C4 at the concrete container `c4Sample`. -/
theorem clear_force_zeroes_witness :
    classCounterZeroed ((7, c4ClearedEntry) : Nat × TClassCounter).2 ∧
    ((7, c4ClearedEntry) : Nat × TClassCounter).2.offsetCount = -1 :=
  clear_force_zeroes c4Sample (7, c4ClearedEntry) (by decide)

/-- Specification-side effect of `clear`, in the frame vocabulary of
the claim: the header, the set and order of class-map keys, each
node's address, and each child list's membership, order, class
records and `callCount` values are all kept; every root and child
object counter is zeroed; every offsets cache is dropped with
`offsetCount` reset to `-1`; the is-cleared flag is set; the
allocator and free lists are untouched. -/
def clearSpecEffect (s : TSnapShotContainer) : TSnapShotContainer :=
  { header := s.header
    counterMap := s.counterMap.map (fun kv => (kv.1,
      { addr := kv.2.addr
        counter := zeroObjectCounter
        child := kv.2.child.map (fun ch =>
          { addr := ch.addr
            counter := zeroObjectCounter
            objData := ch.objData
            callCount := ch.callCount })
        offsets := none
        offsetCount := -1 }))
    isCleared := true
    nextAddr := s.nextAddr
    freed := s.freed }

theorem clear_eq_ite (s : TSnapShotContainer) (f : Bool) :
    clear s f =
      if f = false ∧ s.isCleared = true then s else clearSpecEffect s := by
  cases f <;> cases h : s.isCleared <;>
    simp [clear, clearSpecEffect, clearChildClassCounters, clearObjectCounter, h]

/-- C10: for both values of the force flag, `clear` is exactly the
no-op on a non-forced already-cleared container and otherwise exactly
`clearSpecEffect`: it zeroes the object counters, nulls the offsets
caches with `offsetCount := -1` and sets the is-cleared flag, while
leaving the header, every `callCount`, and the membership and
ordering of the class map and of every child list unchanged. -/
theorem clear_frame (s : TSnapShotContainer) (f : Bool) :
    clear s f =
      if f = false ∧ s.isCleared = true then s else clearSpecEffect s :=
  clear_eq_ite s f

/-- A container with one class pushed at key 7: freshly constructed,
so its is-cleared flag is still set (nothing in the given sources
resets the flag except the external `setIsCleared` callers). -/
def c5Base : TSnapShotContainer := (pushNewClass (newContainer false) 7).2

/-- `c5Base` after the walker accumulates one object of size 8 into
the class counter at key 7 via `addInc`. -/
def c5After : TSnapShotContainer :=
  addIncToClass c5Base 7 { count := 1, total_size := 8 }

/-- C5 counterexample: `addInc` does not preserve the invariant
"is-cleared implies all counters zero and offsets null". Starting
from a container satisfying the invariant (one pushed class, flag
set), a single `addInc` of `(1, 8)` leaves the is-cleared flag set
while the class counter reads `(1, 8)`. -/
theorem clearedInvariant_broken_by_addInc :
    clearedInvariant c5Base ∧
    c5After.isCleared = true ∧
    ¬ containerCleared c5After ∧
    (findClass c5After 7).map TClassCounter.counter =
      some { count := 1, total_size := 8 } := by
  decide

/-- C5 amended: the invariant "is-cleared implies all counters zero
and offsets null" is preserved by `push_class`, `push_child`, `clear`
(both flags) and the header-setting operations, but not by
`inc`/`addInc`: accumulation must be preceded by resetting the
is-cleared flag through `setIsCleared(false)`, which only callers
outside the container perform. -/
theorem clearedInvariant_preserved (s : TSnapShotContainer) (f : Bool)
    (r pKey : Nat) (od : TObjectData) (info : TJvmInfo) (t sz : Int)
    (cause : TInvokeCause) (h : clearedInvariant s) :
    clearedInvariant (pushNewClass s r).2 ∧
    clearedInvariant (pushNewChildClass s pKey od).2 ∧
    clearedInvariant (clear s f) ∧
    clearedInvariant (setJvmInfo s info) ∧
    clearedInvariant (setSnapShotTime s t) ∧
    clearedInvariant (setSnapShotCause s cause) ∧
    clearedInvariant (setTotalSize s sz) := by
  refine ⟨?_, ?_, ?_, ?_, ?_, ?_, ?_⟩
  · intro hflag kv hkv
    rcases mem_assocSet hkv with hm | rfl
    · exact h hflag kv hm
    · exact ⟨rfl, rfl, by simp [pushNewClass]⟩
  · cases heq : assocFind s.counterMap pKey with
    | none =>
      simp only [pushNewChildClass, heq]
      exact h
    | some cc =>
      intro hflag kv hkv
      simp only [pushNewChildClass, heq] at hkv hflag
      rcases mem_assocSet hkv with hm | rfl
      · exact h hflag kv hm
      · have hcc := h hflag (pKey, cc) (assocFind_mem heq)
        refine ⟨hcc.1, hcc.2.1, ?_⟩
        intro ch hch
        rcases List.mem_append.mp hch with hch | hch
        · exact hcc.2.2 ch hch
        · simp at hch
          subst hch
          rfl
  · intro _ kv hkv
    rw [clear_eq_ite] at hkv
    by_cases hc : f = false ∧ s.isCleared = true
    · rw [if_pos hc] at hkv
      exact h hc.2 kv hkv
    · rw [if_neg hc] at hkv
      simp only [clearSpecEffect, List.mem_map] at hkv
      obtain ⟨x, hx, rfl⟩ := hkv
      exact ⟨rfl, rfl, by
        intro ch hch
        simp only [List.mem_map] at hch
        obtain ⟨c0, hc0, rfl⟩ := hch
        rfl⟩
  · exact h
  · exact h
  · exact h
  · exact h

/-- Witness for the amended C5 theorem at the freshly constructed
container (which satisfies the invariant) with concrete arguments. -/
theorem clearedInvariant_preserved_witness :
    clearedInvariant (pushNewClass (newContainer false) 3).2 ∧
    clearedInvariant (pushNewChildClass (newContainer false) 4
      { tag := 1, klassOop := 9, isRemoved := false, instanceSize := 8 }).2 ∧
    clearedInvariant (clear (newContainer false) true) ∧
    clearedInvariant (setJvmInfo (newContainer false)
      { gcCause := [], gcWorktime := 0, FGCCount := 0, YGCCount := 0,
        newAreaSize := 0, oldAreaSize := 0, metaspaceUsage := 0,
        metaspaceCapacity := 0 }) ∧
    clearedInvariant (setSnapShotTime (newContainer false) 5) ∧
    clearedInvariant (setSnapShotCause (newContainer false) TInvokeCause.GC) ∧
    clearedInvariant (setTotalSize (newContainer false) 6) :=
  clearedInvariant_preserved (newContainer false) true 3 4
    { tag := 1, klassOop := 9, isRemoved := false, instanceSize := 8 }
    { gcCause := [], gcWorktime := 0, FGCCount := 0, YGCCount := 0,
      newAreaSize := 0, oldAreaSize := 0, metaspaceUsage := 0,
      metaspaceCapacity := 0 }
    5 6 TInvokeCause.GC (by decide)

/-! ## LFU child-list scenario (S3) -/

/-- Class record used as child number `n` in the S3 scenario. -/
def c6ObjData (n : Nat) : TObjectData :=
  { tag := (n : Int), klassOop := n, isRemoved := false, instanceSize := 8 }

/-- Container of the S3 scenario: one class at key 100 with children
`C1, C2, C3` pushed in that order (each `push_child` appends at the
tail). -/
def c6Setup : TSnapShotContainer :=
  let s0 := (pushNewClass (newContainer false) 100).2
  let s1 := (pushNewChildClass s0 100 (c6ObjData 1)).2
  let s2 := (pushNewChildClass s1 100 (c6ObjData 2)).2
  (pushNewChildClass s2 100 (c6ObjData 3)).2

/-- Iterated `findChildClass` on the same child key, keeping the
reordered class counter each time. -/
def iterateFindChild (cc : TClassCounter) (klassOop : Nat) : Nat → TClassCounter
  | 0 => cc
  | n + 1 => iterateFindChild (findChildClass cc klassOop).2 klassOop n

/-- The class counter of the S3 scenario, read back from the
container (the `getD` default is never reached: the first conjunct of
the theorem checks the lookup really yields this counter). -/
def c6K : TClassCounter :=
  (findClass c6Setup 100).getD
    { addr := 0
      counter := zeroObjectCounter
      child := []
      offsets := none
      offsetCount := -1 }

/-- C6: with children `C1, C2, C3` pushed in that order under a class
counter, five `find_child` calls for `C3` leave the list in order
`C3, C1, C2`: the first hit raises `C3`'s call count to 1 and swaps
it past `C2` (whose count 0 is lower or equal), the second raises it
to 2 and swaps it past `C1` to the head, and the remaining hits only
increment its count (no preceding sibling), ending at call count 5
with `C1`, `C2` untouched at 0. -/
theorem lfu_promotion_scenario :
    findClass c6Setup 100 = some c6K ∧
    ((iterateFindChild c6K 3 1).child.map (fun ch => ch.objData.klassOop)
      = [1, 3, 2]) ∧
    ((iterateFindChild c6K 3 1).child.map (fun ch => ch.callCount)
      = [0, 1, 0]) ∧
    ((iterateFindChild c6K 3 2).child.map (fun ch => ch.objData.klassOop)
      = [3, 1, 2]) ∧
    ((iterateFindChild c6K 3 3).child.map (fun ch => ch.objData.klassOop)
      = [3, 1, 2]) ∧
    ((iterateFindChild c6K 3 4).child.map (fun ch => ch.objData.klassOop)
      = [3, 1, 2]) ∧
    ((iterateFindChild c6K 3 5).child.map (fun ch => ch.objData.klassOop)
      = [3, 1, 2]) ∧
    ((iterateFindChild c6K 3 5).child.map (fun ch => ch.callCount)
      = [5, 0, 0]) := by
  decide

/-! ## Child-list promotion preserves the node multiset (C7) -/

theorem findChildGo_perm (prev : TChildClassCounter)
    (l : List TChildClassCounter) (k : Nat) :
    List.Perm ((findChildGo prev l k).2.map TChildClassCounter.addr)
      (prev.addr :: l.map TChildClassCounter.addr) := by
  induction l generalizing prev with
  | nil => simp [findChildGo]
  | cons c rest ih =>
    by_cases hk : c.objData.klassOop = k
    · by_cases hc : prev.callCount ≤ c.callCount + 1
      · simp only [findChildGo, hk, if_true, hc, List.map_cons]
        exact List.Perm.swap _ _ _
      · simp [findChildGo, hk, hc]
    · simp only [findChildGo, hk, if_false, List.map_cons]
      exact List.Perm.cons _ (ih c)

theorem findChildClass_perm (cc : TClassCounter) (k : Nat) :
    List.Perm ((findChildClass cc k).2.child.map TChildClassCounter.addr)
      (cc.child.map TChildClassCounter.addr) := by
  cases hl : cc.child with
  | nil => simp [findChildClass, hl]
  | cons c rest =>
    by_cases hk : c.objData.klassOop = k
    · simp [findChildClass, hl, hk]
    · simp only [findChildClass, hl, hk, if_false, List.map_cons]
      exact findChildGo_perm c rest k

/-- C7: for every class counter and every sequence of `find_child`
calls (hits and misses in any order), the multiset of child-node
addresses reachable from the child head is preserved: the LFU
promotion permutes the list but never loses a node, never duplicates
one, and — the list being the faithful reading of the acyclic `next`
chain the source rewires by one adjacent swap — never creates a
cycle. -/
theorem findChild_preserves_node_multiset (cc : TClassCounter)
    (ks : List Nat) :
    List.Perm
      ((ks.foldl (fun c k => (findChildClass c k).2) cc).child.map
        TChildClassCounter.addr)
      (cc.child.map TChildClassCounter.addr) := by
  induction ks generalizing cc with
  | nil => simp
  | cons k rest ih =>
    simp only [List.foldl_cons]
    exact (ih _).trans (findChildClass_perm cc k)

/-! ## Class registry (`TClassContainer`) -/

/-- Host-pointer → class-record index (`TClassMap` in
classContainer.hpp): maps `void *` class pointers to `TObjectData *`
pointers, which may be stored as null. -/
abbrev TClassMap := List (Nat × Option TObjectData)

namespace TClassContainer

/-- `TClassContainer::findClass` (classContainer.hpp lines 110-113):
map lookup; both an absent key and a stored null pointer read back as
`NULL`. -/
def findClass (m : TClassMap) (klassOop : Nat) : Option TObjectData :=
  match assocFind m klassOop with
  | some v => v
  | none => none

/-- `TClassContainer::updateClass` (classContainer.hpp lines 121-127):
`(*classMap)[newKlassOop] = (*classMap)[oldKlassOop]` reads the old
mapping (`operator[]` yields the stored pointer, or null after
default-inserting when the key is absent) and stores it under the new
pointer; then the erase removes the old key. The source notes class
relocation only happens at a single-threaded safepoint. -/
def updateClass (m : TClassMap) (oldKlassOop newKlassOop : Nat) : TClassMap :=
  let v := (assocFind m oldKlassOop).getD none
  assocErase (assocSet m newKlassOop v) oldKlassOop

/-- Modelled from the spec: `TClassContainer::pushNewClass(void *,
TObjectData *)` is declared in classContainer.hpp but its body
(classContainer.cpp) is not among the given sources. Spec §4.1,
`intern`: "if absent, install; if present, return existing." -/
def pushNewClass (m : TClassMap) (klassOop : Nat) (objData : TObjectData) :
    TObjectData × TClassMap :=
  match findClass m klassOop with
  | some existing => (existing, m)
  | none => (objData, assocSet m klassOop (some objData))

/-- Modelled from the spec: `TClassContainer::popClass` is declared in
classContainer.hpp but its body is not among the given sources. Spec
§4.1, `mark-unloaded(record)`: "atomically set the unload flag; the
record itself is retained." Records are identified by their durable
`tag`. -/
def popClass (m : TClassMap) (target : TObjectData) : TClassMap :=
  m.map (fun kv => (kv.1,
    match kv.2 with
    | some od =>
      if od.tag = target.tag then some { od with isRemoved := true }
      else some od
    | none => none))

end TClassContainer

theorem assocFind_assocErase_self {α : Type} (m : List (Nat × α)) (k : Nat) :
    assocFind (assocErase m k) k = none := by
  induction m with
  | nil => simp [assocErase, assocFind]
  | cons hd rest ih =>
    by_cases hk : hd.1 = k
    · simpa [assocErase, hk] using ih
    · simpa [assocErase, assocFind, hk] using ih

theorem assocFind_assocErase_ne {α : Type} (m : List (Nat × α)) {k k0 : Nat}
    (h : k ≠ k0) : assocFind (assocErase m k0) k = assocFind m k := by
  induction m with
  | nil => simp [assocErase, assocFind]
  | cons hd rest ih =>
    have h2 : ¬ k0 = k := fun e => h e.symm
    by_cases hk : hd.1 = k0
    · have hne : ¬ hd.1 = k := by rw [hk]; exact fun e => h e.symm
      simp [assocErase, assocFind, hk, hne, h2, ih]
    · by_cases hk2 : hd.1 = k
      · simp [assocErase, assocFind, hk, hk2, h, h2]
      · simp [assocErase, assocFind, hk, hk2, ih]

/-- C8: if the registry maps host pointer `p` to record `r` (whether
or not `r` was previously marked unloaded), then after
`relocate(p, q)` with `q ≠ p` the new pointer `q` maps to exactly the
same record `r` — durable tag and `is_unloaded` flag untouched, since
the record value is carried over unchanged — and `p` no longer
resolves. -/
theorem updateClass_relocates (m : TClassMap) (p q : Nat) (r : TObjectData)
    (hpq : p ≠ q) (hfind : TClassContainer.findClass m p = some r) :
    TClassContainer.findClass (TClassContainer.updateClass m p q) q = some r ∧
    TClassContainer.findClass (TClassContainer.updateClass m p q) p = none := by
  have hv : assocFind m p = some (some r) := by
    unfold TClassContainer.findClass at hfind
    cases h : assocFind m p with
    | none =>
      rw [h] at hfind
      exact Option.noConfusion hfind
    | some v =>
      rw [h] at hfind
      have hv2 : v = some r := hfind
      rw [hv2]
  constructor
  · show (match assocFind (assocErase
          (assocSet m q ((assocFind m p).getD none)) p) q with
        | some v => v
        | none => none) = some r
    rw [assocFind_assocErase_ne _ (Ne.symm hpq), assocFind_assocSet, hv]
    rfl
  · show (match assocFind (assocErase
          (assocSet m q ((assocFind m p).getD none)) p) p with
        | some v => v
        | none => none) = none
    rw [assocFind_assocErase_self]

/-- Class record of the S5 scenario, interned at host pointer 4096. -/
def c8K : TObjectData :=
  { tag := 1, klassOop := 4096, isRemoved := false, instanceSize := 24 }

/-- The same record after `mark_unloaded`. -/
def c8KUnloaded : TObjectData :=
  { tag := 1, klassOop := 4096, isRemoved := true, instanceSize := 24 }

/-- Registry of the S5 scenario: `c8K` interned at 4096, then marked
unloaded. -/
def c8Map : TClassMap :=
  TClassContainer.popClass (TClassContainer.pushNewClass [] 4096 c8K).2 c8K

/-- Witness for C8 at the concrete S5 scenario: intern at 4096, mark
unloaded, relocate 4096 → 8192; the record found at 8192 is the same
one, its unload flag observable as true, and 4096 resolves to null. -/
theorem updateClass_relocates_witness :
    TClassContainer.findClass (TClassContainer.updateClass c8Map 4096 8192) 8192
      = some c8KUnloaded ∧
    TClassContainer.findClass (TClassContainer.updateClass c8Map 4096 8192) 4096
      = none ∧
    c8KUnloaded.isRemoved = true :=
  ⟨(updateClass_relocates c8Map 4096 8192 c8KUnloaded (by decide) (by decide)).1,
   (updateClass_relocates c8Map 4096 8192 c8KUnloaded (by decide) (by decide)).2,
   by decide⟩
